import Mathlib

/-!
Verification of the task-progression state machine of `src/game.js`
(3D-Dragon-Adventure).

The game's core logic lives in three functions of `src/game.js`:
`spawnCrystal` (lines 157-167), `updateTaskUI` (lines 170-194) and
`checkCurrentTaskCompletion` (lines 198-251), acting on the module-level
mutable state `currentTask`, `hasCrystal`, the three target meshes
(`shrineTarget`, `crystalObject`, `elderPlaceholder`) and the UI text
element.  We embed that state as an explicit `GameState` record and each
function as a pure state transformer.

Positions are 3D vectors of rationals.  The source compares
`playerPos.distanceTo(target) < completionRadius` where `distanceTo` is
the Euclidean distance; since both sides are nonnegative this holds
exactly when the squared distance is `< completionRadius ^ 2`, which is
how the guard is written here (`distSq p q < completionRadius ^ 2`),
avoiding square roots while preserving the comparison exactly.
-/

namespace DragonAdventure

/-- 3D vector of rational coordinates, modelling a THREE.Vector3. -/
structure Vec3 where
  x : ℚ
  y : ℚ
  z : ℚ
deriving DecidableEq, Repr

/-- Squared Euclidean distance between two points.
`distanceTo a b < r` in the source (with `r ≥ 0`) is equivalent to
`distSq a b < r ^ 2`. -/
def distSq (a b : Vec3) : ℚ :=
  (a.x - b.x) ^ 2 + (a.y - b.y) ^ 2 + (a.z - b.z) ^ 2

/-- The game state: the module-level mutable variables of `src/game.js`
together with the observable fields of the three task-target objects and
the UI text.  `crystalInScene` models `crystalObject.parent === scene`
(presence in the scene graph, i.e. visibility);  `crystalRotY` models
`crystalObject.rotation.y`;  colors are the hex values set by
`material.color.set`. -/
structure GameState where
  currentTask : ℕ
  hasCrystal : Bool
  shrinePos : Vec3
  shrineColor : ℕ
  shrineWireframe : Bool
  crystalPos : Vec3
  crystalInScene : Bool
  crystalRotY : ℚ
  elderPos : Vec3
  elderColor : ℕ
  uiText : String
deriving DecidableEq, Repr

/-- `const completionRadius = 3.0` (game.js line 24). -/
def completionRadius : ℚ := 3

/-- `spawnCrystal` (game.js lines 157-167): if the crystal is already in
the scene do nothing; otherwise copy the shrine position, subtract 1.0
from y, add 1.5 to x, and add the crystal to the scene. -/
def spawnCrystal (s : GameState) : GameState :=
  if s.crystalInScene then s
  else
    { s with
      crystalPos :=
        { x := s.shrinePos.x + 1.5
          y := s.shrinePos.y - 1
          z := s.shrinePos.z }
      crystalInScene := true }

/-- `updateTaskUI` (game.js lines 170-194): set the UI text by a switch
on `currentTask`; in case 3 the text additionally depends on
`hasCrystal`. -/
def updateTaskUI (s : GameState) : GameState :=
  { s with
    uiText :=
      match s.currentTask with
      | 1 => "Task 1: Fly to the Ancient Shrine (Yellow Orb)"
      | 2 => "Task 2: Collect the Sacred Crystal (Blue Crystal)"
      | 3 =>
        if s.hasCrystal then
          "Task 3: Deliver the Crystal to the Elder (Grey Capsule) at the Village (Green Platform)"
        else
          "Task 3: Find the Elder... (Missing Crystal)"
      | 4 => "All Tasks Complete! The tribe is safe for now."
      | _ => "No current task." }

/-- The effect block run when the transition into state `t` fires, as the
source writes it inline in `checkCurrentTaskCompletion`:
into 2 (lines 206-214): set `currentTask = 2`, make the shrine solid
green, `spawnCrystal()`, `updateTaskUI()`;
into 3 (lines 221-226): set `currentTask = 3`, `hasCrystal = true`,
remove the crystal from the scene, `updateTaskUI()`;
into 4 (lines 233-240): set `currentTask = 4`, `hasCrystal = false`,
recolor the elder to lighter grey, `updateTaskUI()`. -/
def applyTransitionEffects (t : ℕ) (s : GameState) : GameState :=
  match t with
  | 2 =>
    updateTaskUI (spawnCrystal
      { s with currentTask := 2, shrineColor := 0x00FF00, shrineWireframe := false })
  | 3 =>
    updateTaskUI
      { s with currentTask := 3, hasCrystal := true, crystalInScene := false }
  | 4 =>
    updateTaskUI
      { s with currentTask := 4, hasCrystal := false, elderColor := 0xA0A0A0 }
  | _ => s

/-- The tail of `checkCurrentTaskCompletion` (game.js lines 247-250):
if the crystal is in the scene, spin it by `rotation.y += 0.02`. -/
def spinCrystal (s : GameState) : GameState :=
  if s.crystalInScene then { s with crystalRotY := s.crystalRotY + 1 / 50 }
  else s

/-- `checkCurrentTaskCompletion` (game.js lines 198-251): switch on
`currentTask`; case 1 guards on distance to the shrine, case 2 on the
crystal being in the scene and distance to it, case 3 on `hasCrystal`
and distance to the elder; when a guard passes the corresponding effect
block runs; finally the crystal is spun if present.  `playerPos` is
`playerObjectContainer.position`. -/
def checkCurrentTaskCompletion (playerPos : Vec3) (s : GameState) : GameState :=
  spinCrystal
    (match s.currentTask with
     | 1 =>
       if distSq playerPos s.shrinePos < completionRadius ^ 2 then
         applyTransitionEffects 2 s
       else s
     | 2 =>
       if s.crystalInScene = true ∧ distSq playerPos s.crystalPos < completionRadius ^ 2 then
         applyTransitionEffects 3 s
       else s
     | 3 =>
       if s.hasCrystal = true ∧ distSq playerPos s.elderPos < completionRadius ^ 2 then
         applyTransitionEffects 4 s
       else s
     | _ => s)

/-- The guard of the current state, as a boolean: state 1 checks distance
to the shrine, state 2 additionally requires the crystal in the scene,
state 3 requires `hasCrystal`; other states (including the terminal
state 4) have no guard. -/
def guardPasses (p : Vec3) (s : GameState) : Bool :=
  match s.currentTask with
  | 1 => decide (distSq p s.shrinePos < completionRadius ^ 2)
  | 2 => s.crystalInScene && decide (distSq p s.crystalPos < completionRadius ^ 2)
  | 3 => s.hasCrystal && decide (distSq p s.elderPos < completionRadius ^ 2)
  | _ => false

/-- The state after `init()` and `loadingManager.onLoad` in game.js:
`currentTask = 1`, `hasCrystal = false`, shrine at (15, 5, 20) as a
yellow wireframe, crystal created but not added to the scene (default
position (0, 0, 0), rotation 0), elder at (-15, 1.75, -12) in grey, and
the UI text set by the initial `updateTaskUI()` call. -/
def initState : GameState :=
  { currentTask := 1
    hasCrystal := false
    shrinePos := { x := 15, y := 5, z := 20 }
    shrineColor := 0xFFFF00
    shrineWireframe := true
    crystalPos := { x := 0, y := 0, z := 0 }
    crystalInScene := false
    crystalRotY := 0
    elderPos := { x := -15, y := 1.75, z := -12 }
    elderColor := 0x808080
    uiText := "Task 1: Fly to the Ancient Shrine (Yellow Orb)" }

/-- Reachable states: `initState` and anything obtained from a reachable
state by one evaluation step (one `checkCurrentTaskCompletion` call at
some player position). -/
inductive Reachable : GameState → Prop
  | init : Reachable initState
  | step (p : Vec3) (s : GameState) :
      Reachable s → Reachable (checkCurrentTaskCompletion p s)

/-! Field projections of the state transformers. -/

@[simp] lemma spinCrystal_currentTask (s : GameState) :
    (spinCrystal s).currentTask = s.currentTask := by
  unfold spinCrystal; split <;> rfl

@[simp] lemma spinCrystal_hasCrystal (s : GameState) :
    (spinCrystal s).hasCrystal = s.hasCrystal := by
  unfold spinCrystal; split <;> rfl

@[simp] lemma spinCrystal_crystalInScene (s : GameState) :
    (spinCrystal s).crystalInScene = s.crystalInScene := by
  unfold spinCrystal; split <;> rfl

@[simp] lemma spinCrystal_crystalPos (s : GameState) :
    (spinCrystal s).crystalPos = s.crystalPos := by
  unfold spinCrystal; split <;> rfl

@[simp] lemma spinCrystal_shrineColor (s : GameState) :
    (spinCrystal s).shrineColor = s.shrineColor := by
  unfold spinCrystal; split <;> rfl

@[simp] lemma spinCrystal_shrineWireframe (s : GameState) :
    (spinCrystal s).shrineWireframe = s.shrineWireframe := by
  unfold spinCrystal; split <;> rfl

@[simp] lemma spinCrystal_elderColor (s : GameState) :
    (spinCrystal s).elderColor = s.elderColor := by
  unfold spinCrystal; split <;> rfl

@[simp] lemma spinCrystal_uiText (s : GameState) :
    (spinCrystal s).uiText = s.uiText := by
  unfold spinCrystal; split <;> rfl

@[simp] lemma updateTaskUI_currentTask (s : GameState) :
    (updateTaskUI s).currentTask = s.currentTask := rfl

@[simp] lemma updateTaskUI_hasCrystal (s : GameState) :
    (updateTaskUI s).hasCrystal = s.hasCrystal := rfl

@[simp] lemma updateTaskUI_crystalInScene (s : GameState) :
    (updateTaskUI s).crystalInScene = s.crystalInScene := rfl

@[simp] lemma updateTaskUI_crystalPos (s : GameState) :
    (updateTaskUI s).crystalPos = s.crystalPos := rfl

@[simp] lemma updateTaskUI_shrineColor (s : GameState) :
    (updateTaskUI s).shrineColor = s.shrineColor := rfl

@[simp] lemma updateTaskUI_shrineWireframe (s : GameState) :
    (updateTaskUI s).shrineWireframe = s.shrineWireframe := rfl

@[simp] lemma updateTaskUI_elderColor (s : GameState) :
    (updateTaskUI s).elderColor = s.elderColor := rfl

@[simp] lemma spawnCrystal_currentTask (s : GameState) :
    (spawnCrystal s).currentTask = s.currentTask := by
  unfold spawnCrystal; split <;> rfl

@[simp] lemma spawnCrystal_hasCrystal (s : GameState) :
    (spawnCrystal s).hasCrystal = s.hasCrystal := by
  unfold spawnCrystal; split <;> rfl

@[simp] lemma spawnCrystal_crystalInScene (s : GameState) :
    (spawnCrystal s).crystalInScene = true := by
  unfold spawnCrystal; split <;> simp_all

@[simp] lemma spawnCrystal_shrineColor (s : GameState) :
    (spawnCrystal s).shrineColor = s.shrineColor := by
  unfold spawnCrystal; split <;> rfl

@[simp] lemma spawnCrystal_shrineWireframe (s : GameState) :
    (spawnCrystal s).shrineWireframe = s.shrineWireframe := by
  unfold spawnCrystal; split <;> rfl

@[simp] lemma spawnCrystal_elderColor (s : GameState) :
    (spawnCrystal s).elderColor = s.elderColor := by
  unfold spawnCrystal; split <;> rfl

@[simp] lemma spawnCrystal_uiText (s : GameState) :
    (spawnCrystal s).uiText = s.uiText := by
  unfold spawnCrystal; split <;> rfl

/-! Run invariant. -/

/-- The inductive invariant of a run: the player holds the crystal only
in state 3, and the crystal is in the scene exactly in state 2. -/
def Inv (s : GameState) : Prop :=
  (s.hasCrystal = true → s.currentTask = 3) ∧
  (s.crystalInScene = true ↔ s.currentTask = 2)

lemma inv_spinCrystal (s : GameState) (h : Inv s) : Inv (spinCrystal s) := by
  unfold Inv at h ⊢; simpa using h

lemma inv_step (p : Vec3) (s : GameState) (h : Inv s) :
    Inv (checkCurrentTaskCompletion p s) := by
  obtain ⟨h1, h2⟩ := h
  unfold checkCurrentTaskCompletion
  apply inv_spinCrystal
  split
  case _ ht =>
    split
    case isTrue hg =>
      have hc : s.hasCrystal = false := by
        cases hhc : s.hasCrystal with
        | false => rfl
        | true => rw [h1 hhc] at ht; exact absurd ht (by simp)
      simp [Inv, applyTransitionEffects, hc]
    case isFalse hg => exact ⟨h1, h2⟩
  case _ ht =>
    split
    case isTrue hg => simp [Inv, applyTransitionEffects]
    case isFalse hg => exact ⟨h1, h2⟩
  case _ ht =>
    split
    case isTrue hg =>
      have hc : s.crystalInScene = false := by
        cases hhc : s.crystalInScene with
        | false => rfl
        | true => rw [h2.mp hhc] at ht; exact absurd ht (by simp)
      simp [Inv, applyTransitionEffects, hc]
    case isFalse hg => exact ⟨h1, h2⟩
  case _ ht₁ ht₂ ht₃ => exact ⟨h1, h2⟩

lemma reachable_inv (s : GameState) (h : Reachable s) : Inv s := by
  induction h with
  | init => exact ⟨by simp [initState], by simp [initState]⟩
  | step p s hs ih => exact inv_step p s ih

/-! A concrete play-through: fly to the shrine, then to the spawned
crystal, then to the elder. -/

/-- State after one evaluation step with the player at the shrine. -/
def runShrine : GameState :=
  checkCurrentTaskCompletion { x := 15, y := 5, z := 20 } initState

/-- State after a further step with the player at the spawned crystal. -/
def runCrystal : GameState :=
  checkCurrentTaskCompletion { x := 16.5, y := 4, z := 20 } runShrine

/-- State after a further step with the player at the elder. -/
def runElder : GameState :=
  checkCurrentTaskCompletion { x := -15, y := 1.75, z := -12 } runCrystal

lemma runShrine_reachable : Reachable runShrine :=
  Reachable.step _ _ Reachable.init

lemma runCrystal_reachable : Reachable runCrystal :=
  Reachable.step _ _ runShrine_reachable

lemma runElder_reachable : Reachable runElder :=
  Reachable.step _ _ runCrystal_reachable

lemma runShrine_eq :
    runShrine =
      { currentTask := 2
        hasCrystal := false
        shrinePos := { x := 15, y := 5, z := 20 }
        shrineColor := 0x00FF00
        shrineWireframe := false
        crystalPos := { x := 16.5, y := 4, z := 20 }
        crystalInScene := true
        crystalRotY := 1 / 50
        elderPos := { x := -15, y := 1.75, z := -12 }
        elderColor := 0x808080
        uiText := "Task 2: Collect the Sacred Crystal (Blue Crystal)" } := by
  norm_num [runShrine, checkCurrentTaskCompletion, initState, distSq,
    completionRadius, applyTransitionEffects, spawnCrystal, updateTaskUI,
    spinCrystal]

lemma runCrystal_eq :
    runCrystal =
      { currentTask := 3
        hasCrystal := true
        shrinePos := { x := 15, y := 5, z := 20 }
        shrineColor := 0x00FF00
        shrineWireframe := false
        crystalPos := { x := 16.5, y := 4, z := 20 }
        crystalInScene := false
        crystalRotY := 1 / 50
        elderPos := { x := -15, y := 1.75, z := -12 }
        elderColor := 0x808080
        uiText := "Task 3: Deliver the Crystal to the Elder (Grey Capsule) at the Village (Green Platform)" } := by
  rw [runCrystal, runShrine_eq]
  norm_num [checkCurrentTaskCompletion, distSq, completionRadius,
    applyTransitionEffects, spawnCrystal, updateTaskUI, spinCrystal]

lemma runElder_eq :
    runElder =
      { currentTask := 4
        hasCrystal := false
        shrinePos := { x := 15, y := 5, z := 20 }
        shrineColor := 0x00FF00
        shrineWireframe := false
        crystalPos := { x := 16.5, y := 4, z := 20 }
        crystalInScene := false
        crystalRotY := 1 / 50
        elderPos := { x := -15, y := 1.75, z := -12 }
        elderColor := 0xA0A0A0
        uiText := "All Tasks Complete! The tribe is safe for now." } := by
  rw [runElder, runCrystal_eq]
  norm_num [checkCurrentTaskCompletion, distSq, completionRadius,
    applyTransitionEffects, spawnCrystal, updateTaskUI, spinCrystal]

/-! Shape of one evaluation step in each state. -/

lemma check_state1 (p : Vec3) (s : GameState) (h : s.currentTask = 1) :
    checkCurrentTaskCompletion p s =
      spinCrystal
        (if distSq p s.shrinePos < completionRadius ^ 2 then
          applyTransitionEffects 2 s
        else s) := by
  unfold checkCurrentTaskCompletion; rw [h]

lemma check_state2 (p : Vec3) (s : GameState) (h : s.currentTask = 2) :
    checkCurrentTaskCompletion p s =
      spinCrystal
        (if s.crystalInScene = true ∧ distSq p s.crystalPos < completionRadius ^ 2 then
          applyTransitionEffects 3 s
        else s) := by
  unfold checkCurrentTaskCompletion; rw [h]

lemma check_state3 (p : Vec3) (s : GameState) (h : s.currentTask = 3) :
    checkCurrentTaskCompletion p s =
      spinCrystal
        (if s.hasCrystal = true ∧ distSq p s.elderPos < completionRadius ^ 2 then
          applyTransitionEffects 4 s
        else s) := by
  unfold checkCurrentTaskCompletion; rw [h]

lemma check_state4 (p : Vec3) (s : GameState) (h : s.currentTask = 4) :
    checkCurrentTaskCompletion p s = spinCrystal s := by
  unfold checkCurrentTaskCompletion; rw [h]

/-! Claim theorems. -/

/-- C1: in state 1 (AwaitingShrine), if the player is strictly within
3.0 units of the shrine at (15, 5, 20) (equivalently, squared distance
below `completionRadius ^ 2`) and the crystal has not been spawned yet,
one evaluation step moves the state to 2, turns the shrine solid green
(color 0x00FF00, wireframe off), puts the crystal into the scene at
(16.5, 4, 20) = shrine + (1.5, -1.0, 0), and sets the UI text to the
task-2 string. -/
theorem C1_shrine_transition (p : Vec3) (s : GameState)
    (h1 : s.currentTask = 1) (h2 : s.crystalInScene = false)
    (h3 : s.shrinePos = { x := 15, y := 5, z := 20 })
    (h4 : distSq p s.shrinePos < completionRadius ^ 2) :
    (checkCurrentTaskCompletion p s).currentTask = 2 ∧
    (checkCurrentTaskCompletion p s).shrineColor = 0x00FF00 ∧
    (checkCurrentTaskCompletion p s).shrineWireframe = false ∧
    (checkCurrentTaskCompletion p s).crystalInScene = true ∧
    (checkCurrentTaskCompletion p s).crystalPos = { x := 16.5, y := 4, z := 20 } ∧
    (checkCurrentTaskCompletion p s).uiText =
      "Task 2: Collect the Sacred Crystal (Blue Crystal)" := by
  unfold checkCurrentTaskCompletion
  rw [h1]
  rw [if_pos h4]
  refine ⟨by simp [applyTransitionEffects], by simp [applyTransitionEffects],
    by simp [applyTransitionEffects], by simp [applyTransitionEffects], ?_, ?_⟩
  · simp only [spinCrystal_crystalPos, applyTransitionEffects,
      updateTaskUI_crystalPos]
    unfold spawnCrystal
    rw [if_neg (by simp [h2])]
    simp [h3]
    norm_num
  · simp [applyTransitionEffects, updateTaskUI]

/-- C1 witness: the transition at the initial state with the player
exactly at the shrine. -/
theorem C1_witness :
    (checkCurrentTaskCompletion { x := 15, y := 5, z := 20 } initState).currentTask = 2 ∧
    (checkCurrentTaskCompletion { x := 15, y := 5, z := 20 } initState).shrineColor = 0x00FF00 ∧
    (checkCurrentTaskCompletion { x := 15, y := 5, z := 20 } initState).shrineWireframe = false ∧
    (checkCurrentTaskCompletion { x := 15, y := 5, z := 20 } initState).crystalInScene = true ∧
    (checkCurrentTaskCompletion { x := 15, y := 5, z := 20 } initState).crystalPos =
      { x := 16.5, y := 4, z := 20 } ∧
    (checkCurrentTaskCompletion { x := 15, y := 5, z := 20 } initState).uiText =
      "Task 2: Collect the Sacred Crystal (Blue Crystal)" :=
  C1_shrine_transition _ initState rfl rfl rfl
    (by norm_num [distSq, initState, completionRadius])

/-- C2: along every run from the initial state, `hasCrystal = true`
implies `currentTask = 3` (AwaitingDelivery). -/
theorem C2_hasCrystal_invariant (s : GameState) (h : Reachable s)
    (hc : s.hasCrystal = true) : s.currentTask = 3 :=
  (reachable_inv s h).1 hc

/-- C2 witness: the reachable state after collecting the crystal holds
it, and is indeed in state 3. -/
theorem C2_witness : runCrystal.currentTask = 3 :=
  C2_hasCrystal_invariant runCrystal runCrystal_reachable
    (by rw [runCrystal_eq])

/-- C3: in each state, a transition fires exactly when the squared
distance from the player to that state's target is strictly below
`completionRadius ^ 2 = 9`, i.e. the Euclidean distance is strictly
below 3.0 (the extra guard conjuncts of states 2 and 3 being assumed);
concretely, from the initial state a player 2.999 units from the shrine
fires the transition while players exactly 3.0 and 3.001 units away do
not. -/
theorem C3_strict_boundary :
    (∀ (p : Vec3) (s : GameState), s.currentTask = 1 →
      ((checkCurrentTaskCompletion p s).currentTask = 2 ↔
        distSq p s.shrinePos < completionRadius ^ 2)) ∧
    (∀ (p : Vec3) (s : GameState), s.currentTask = 2 → s.crystalInScene = true →
      ((checkCurrentTaskCompletion p s).currentTask = 3 ↔
        distSq p s.crystalPos < completionRadius ^ 2)) ∧
    (∀ (p : Vec3) (s : GameState), s.currentTask = 3 → s.hasCrystal = true →
      ((checkCurrentTaskCompletion p s).currentTask = 4 ↔
        distSq p s.elderPos < completionRadius ^ 2)) ∧
    (checkCurrentTaskCompletion { x := 17.999, y := 5, z := 20 } initState).currentTask = 2 ∧
    (checkCurrentTaskCompletion { x := 18, y := 5, z := 20 } initState).currentTask = 1 ∧
    (checkCurrentTaskCompletion { x := 18.001, y := 5, z := 20 } initState).currentTask = 1 := by
  refine ⟨?_, ?_, ?_, ?_, ?_, ?_⟩
  · intro p s h1
    rw [check_state1 p s h1]
    by_cases hg : distSq p s.shrinePos < completionRadius ^ 2
    · rw [if_pos hg]; simp [applyTransitionEffects, hg]
    · rw [if_neg hg]; simp [h1, hg]
  · intro p s h1 h2
    rw [check_state2 p s h1]
    by_cases hg : distSq p s.crystalPos < completionRadius ^ 2
    · rw [if_pos (And.intro h2 hg)]; simp [applyTransitionEffects, hg]
    · rw [if_neg (by simp [hg])]; simp [h1, hg]
  · intro p s h1 h2
    rw [check_state3 p s h1]
    by_cases hg : distSq p s.elderPos < completionRadius ^ 2
    · rw [if_pos (And.intro h2 hg)]; simp [applyTransitionEffects, hg]
    · rw [if_neg (by simp [hg])]; simp [h1, hg]
  · norm_num [checkCurrentTaskCompletion, initState, distSq, completionRadius,
      applyTransitionEffects, spawnCrystal, updateTaskUI, spinCrystal]
  · norm_num [checkCurrentTaskCompletion, initState, distSq, completionRadius,
      spinCrystal]
  · norm_num [checkCurrentTaskCompletion, initState, distSq, completionRadius,
      spinCrystal]

/-- C3 witness: the state-2 guard of the theorem applied after the first
transition, with the player exactly at the crystal (distance 0). -/
theorem C3_witness :
    (checkCurrentTaskCompletion { x := 16.5, y := 4, z := 20 } runShrine).currentTask = 3 :=
  (C3_strict_boundary.2.1 _ runShrine (by rw [runShrine_eq])
      (by rw [runShrine_eq])).mpr
    (by rw [runShrine_eq]; norm_num [distSq, completionRadius])

/-- C5: in state 3 (AwaitingDelivery) a step transitions to state 4
exactly when `hasCrystal` holds and the player is strictly within 3.0
units of the elder; the transition clears `hasCrystal`, recolors the
elder lighter grey (0xA0A0A0) and shows the completion text; and with
`hasCrystal = false` no transition occurs at any position, in particular
at the elder position itself. -/
theorem C5_delivery (p : Vec3) (s : GameState) (h : s.currentTask = 3) :
    ((checkCurrentTaskCompletion p s).currentTask = 4 ↔
      (s.hasCrystal = true ∧ distSq p s.elderPos < completionRadius ^ 2)) ∧
    (s.hasCrystal = true → distSq p s.elderPos < completionRadius ^ 2 →
      (checkCurrentTaskCompletion p s).hasCrystal = false ∧
      (checkCurrentTaskCompletion p s).elderColor = 0xA0A0A0 ∧
      (checkCurrentTaskCompletion p s).uiText =
        "All Tasks Complete! The tribe is safe for now.") ∧
    (s.hasCrystal = false → (checkCurrentTaskCompletion p s).currentTask = 3) := by
  rw [check_state3 p s h]
  refine ⟨?_, ?_, ?_⟩
  · by_cases hg : s.hasCrystal = true ∧ distSq p s.elderPos < completionRadius ^ 2
    · rw [if_pos hg]; simp [applyTransitionEffects, hg]
    · rw [if_neg hg]; simp [h, hg]
  · intro hc hd
    rw [if_pos (And.intro hc hd)]
    simp [applyTransitionEffects, updateTaskUI]
  · intro hc
    rw [if_neg (by simp [hc])]
    simp [h]

/-- C5 witness: delivery from the reachable state that holds the
crystal, with the player exactly at the elder. -/
theorem C5_witness :
    (checkCurrentTaskCompletion { x := -15, y := 1.75, z := -12 } runCrystal).currentTask = 4 :=
  (C5_delivery _ runCrystal (by rw [runCrystal_eq])).1.mpr
    ⟨by rw [runCrystal_eq], by rw [runCrystal_eq]; norm_num [distSq, completionRadius]⟩

/-- C4 counterexample: in state 2 with the crystal in the scene and the
player far from it (here at the origin, far from the crystal at
(16.5, 4, 20)), no guard passes, yet the step is not a no-op: the
crystal's Y rotation advances by 0.02 (`crystalObject.rotation.y += 0.02`
at game.js lines 248-250 runs regardless of any transition). -/
theorem C4_counterexample :
    guardPasses { x := 0, y := 0, z := 0 }
      { currentTask := 2
        hasCrystal := false
        shrinePos := { x := 15, y := 5, z := 20 }
        shrineColor := 0x00FF00
        shrineWireframe := false
        crystalPos := { x := 16.5, y := 4, z := 20 }
        crystalInScene := true
        crystalRotY := 1 / 50
        elderPos := { x := -15, y := 1.75, z := -12 }
        elderColor := 0x808080
        uiText := "Task 2: Collect the Sacred Crystal (Blue Crystal)" } = false ∧
    checkCurrentTaskCompletion { x := 0, y := 0, z := 0 }
      { currentTask := 2
        hasCrystal := false
        shrinePos := { x := 15, y := 5, z := 20 }
        shrineColor := 0x00FF00
        shrineWireframe := false
        crystalPos := { x := 16.5, y := 4, z := 20 }
        crystalInScene := true
        crystalRotY := 1 / 50
        elderPos := { x := -15, y := 1.75, z := -12 }
        elderColor := 0x808080
        uiText := "Task 2: Collect the Sacred Crystal (Blue Crystal)" } ≠
      { currentTask := 2
        hasCrystal := false
        shrinePos := { x := 15, y := 5, z := 20 }
        shrineColor := 0x00FF00
        shrineWireframe := false
        crystalPos := { x := 16.5, y := 4, z := 20 }
        crystalInScene := true
        crystalRotY := 1 / 50
        elderPos := { x := -15, y := 1.75, z := -12 }
        elderColor := 0x808080
        uiText := "Task 2: Collect the Sacred Crystal (Blue Crystal)" } := by
  constructor
  · norm_num [guardPasses, distSq, completionRadius]
  · intro he
    have hr := congrArg GameState.crystalRotY he
    norm_num [checkCurrentTaskCompletion, distSq, completionRadius,
      spinCrystal] at hr

/-- C4 (amended): when no guard passes, the step leaves `currentTask`,
`hasCrystal`, every position, visibility, appearance and the UI text
unchanged; the single exception is the crystal's Y rotation, which
advances by 0.02 whenever the crystal is in the scene.  When the
crystal is not in the scene the step is a strict no-op. -/
theorem C4_no_guard_frame (p : Vec3) (s : GameState)
    (h : guardPasses p s = false) :
    checkCurrentTaskCompletion p s =
      (if s.crystalInScene then { s with crystalRotY := s.crystalRotY + 1 / 50 }
       else s) := by
  have hspin : spinCrystal s =
      (if s.crystalInScene then { s with crystalRotY := s.crystalRotY + 1 / 50 }
       else s) := rfl
  unfold guardPasses at h
  by_cases h1 : s.currentTask = 1
  · rw [check_state1 p s h1]
    rw [h1] at h
    simp only [decide_eq_false_iff_not] at h
    rw [if_neg h]
    exact hspin
  · by_cases h2 : s.currentTask = 2
    · rw [check_state2 p s h2]
      rw [h2] at h
      simp only [Bool.and_eq_false_iff, decide_eq_false_iff_not] at h
      rw [if_neg (by rcases h with h | h <;> simp [h])]
      exact hspin
    · by_cases h3 : s.currentTask = 3
      · rw [check_state3 p s h3]
        rw [h3] at h
        simp only [Bool.and_eq_false_iff, decide_eq_false_iff_not] at h
        rw [if_neg (by rcases h with h | h <;> simp [h])]
        exact hspin
      · rw [← hspin]
        unfold checkCurrentTaskCompletion
        have : (match s.currentTask with
            | 1 =>
              if distSq p s.shrinePos < completionRadius ^ 2 then
                applyTransitionEffects 2 s
              else s
            | 2 =>
              if s.crystalInScene = true ∧ distSq p s.crystalPos < completionRadius ^ 2 then
                applyTransitionEffects 3 s
              else s
            | 3 =>
              if s.hasCrystal = true ∧ distSq p s.elderPos < completionRadius ^ 2 then
                applyTransitionEffects 4 s
              else s
            | _ => s) = s := by
          rcases s with ⟨t, _, _, _, _, _, _, _, _, _, _⟩
          simp only at h1 h2 h3 ⊢
        rw [this]

/-- C4 witness: from the initial state with the player at the origin no
guard passes, and the step is the identity (the crystal is not yet in
the scene). -/
theorem C4_witness :
    checkCurrentTaskCompletion { x := 0, y := 0, z := 0 } initState =
      (if initState.crystalInScene then
        { initState with crystalRotY := initState.crystalRotY + 1 / 50 }
       else initState) :=
  C4_no_guard_frame _ initState
    (by norm_num [guardPasses, initState, distSq, completionRadius])

/-- C6: in state 2 with the crystal absent from the scene, an evaluation
step at any player position returns the state unchanged (in particular
no transition and no error: the guard short-circuits on
`crystalObject.parent === scene`). -/
theorem C6_hidden_crystal_noop (p : Vec3) (s : GameState)
    (h1 : s.currentTask = 2) (h2 : s.crystalInScene = false) :
    checkCurrentTaskCompletion p s = s := by
  rw [check_state2 p s h1]
  rw [if_neg (by simp [h2])]
  unfold spinCrystal
  rw [if_neg (by simp [h2])]

/-- C6 witness: state 2 never having spawned the crystal, player at the
origin. -/
theorem C6_witness :
    checkCurrentTaskCompletion { x := 0, y := 0, z := 0 }
      { initState with currentTask := 2 } =
      { initState with currentTask := 2 } :=
  C6_hidden_crystal_noop _ _ rfl rfl

/-- C7: once the terminal state 4 is reached (reachably), every further
evaluation step at any player position returns the state unchanged: no
transition, no effects, no error. -/
theorem C7_terminal_noop (p : Vec3) (s : GameState) (h : Reachable s)
    (h4 : s.currentTask = 4) :
    checkCurrentTaskCompletion p s = s := by
  have hc : s.crystalInScene = false := by
    have hiff := (reachable_inv s h).2
    rw [h4] at hiff
    simpa using hiff
  rw [check_state4 p s h4]
  unfold spinCrystal
  rw [if_neg (by simp [hc])]

/-- C7 witness: the completed play-through state is terminal for a step
at an arbitrary position. -/
theorem C7_witness :
    checkCurrentTaskCompletion { x := 1, y := 2, z := 3 } runElder = runElder :=
  C7_terminal_noop _ runElder runElder_reachable (by rw [runElder_eq])

/-- C8: applying the effect block of a transition twice yields the same
final state as applying it once — `spawnCrystal` is guarded by presence
in the scene, recoloring and `updateTaskUI` overwrite with fixed values,
and the state-variable assignments repeat the same values. -/
theorem C8_effects_idempotent (t : ℕ) (s : GameState) :
    applyTransitionEffects t (applyTransitionEffects t s) =
      applyTransitionEffects t s := by
  match t with
  | 0 => rfl
  | 1 => rfl
  | 2 =>
    rcases s with ⟨t₀, hc₀, sp₀, sc₀, sw₀, cp₀, ci₀, cr₀, ep₀, ec₀, ui₀⟩
    cases ci₀ <;> rfl
  | 3 => rfl
  | 4 => rfl
  | n + 5 => rfl

/-- C9 counterexample: two states in the same task state 3 but with
different `hasCrystal` flags receive different UI texts — the text is
not a function of the state value alone (game.js lines 179-185 branch
on `hasCrystal` inside case 3). -/
theorem C9_counterexample :
    ({ initState with currentTask := 3, hasCrystal := true } : GameState).currentTask =
      ({ initState with currentTask := 3, hasCrystal := false } : GameState).currentTask ∧
    (updateTaskUI { initState with currentTask := 3, hasCrystal := true }).uiText ≠
      (updateTaskUI { initState with currentTask := 3, hasCrystal := false }).uiText := by
  constructor
  · rfl
  · simp [updateTaskUI]

/-- C9 (amended): the displayed objective text is a fixed string fully
determined by the pair (current state value, `hasCrystal`): states 1, 2,
4 and the fallback each have exactly one string, while state 3 has two
strings selected by `hasCrystal`; updating the UI in the same state with
the same `hasCrystal` flag always produces the same text. -/
theorem C9_text_determined (s₁ s₂ : GameState)
    (h1 : s₁.currentTask = s₂.currentTask) (h2 : s₁.hasCrystal = s₂.hasCrystal) :
    (updateTaskUI s₁).uiText = (updateTaskUI s₂).uiText := by
  unfold updateTaskUI
  simp only [h1, h2]

/-- C9 witness: two distinct states agreeing on `currentTask` and
`hasCrystal` receive the same text. -/
theorem C9_witness :
    (updateTaskUI initState).uiText =
      (updateTaskUI { initState with uiText := "stale" }).uiText :=
  C9_text_determined _ _ rfl rfl

/-- C10: the crystal starts outside the scene, and along every run it is
in the scene (visible) exactly while `currentTask = 2`: it enters on the
1→2 transition (`spawnCrystal`) and leaves on the 2→3 transition
(`scene.remove`). -/
theorem C10_crystal_iff_task2 :
    initState.crystalInScene = false ∧
    ∀ s : GameState, Reachable s → (s.crystalInScene = true ↔ s.currentTask = 2) :=
  ⟨rfl, fun s h => (reachable_inv s h).2⟩

/-- C10 witness: the invariant instantiated at the reachable state just
after the 1→2 transition, where the crystal is in the scene. -/
theorem C10_witness : runShrine.crystalInScene = true ↔ runShrine.currentTask = 2 :=
  C10_crystal_iff_task2.2 runShrine runShrine_reachable

end DragonAdventure
